import Mathlib

/-!
# Checkout controller of open-event-frontend (`app/controllers/orders/pending.js`)

A shallow embedding of the pending-order controller: its computed flags
(`isStripe`, `isPaypal`, `isOmise`, `isAliPay`), the Omise key and form action,
and the two actions `aliPayCheckout` and `processStripeToken`.

Modelling conventions

* JavaScript values are the type `JSVal`; numbers are restricted to integers.
  Objects are ordered field lists with distinct keys, looked up by key.
* Property access `v.k` throws a `TypeError` on `undefined` and `null`
  (`getProp`); Ember path access `this.get('a.b')` never throws (`emberGet`).
* The controller's collaborators are recorded, not executed: every call of
  `loader.post`, `notify.success`, `notify.error`, `transitionToRoute` and
  `console.warn` appends one `Event` to the trace.  These collaborators, and
  `l10n.t`, are taken to return normally; `loader.post` alone may throw.
* `loader.post` is a parameter.  It either throws synchronously or returns a
  promise, which is fulfilled, rejected, or never settles.  A promise chain is
  run to quiescence: `thenP`, `catchP`, `finallyP` run the handler of a settled
  promise and leave a pending one pending.
* A computed property is its dependent keys and its getter (`Computed`).  An
  `Instance` pairs the controller state with the values cached so far: a read
  answers from the cache when it can, and a write at a path drops the cached
  values of the properties that list the path, or a path below it, as a
  dependent key.
-/

namespace OpenEvent

/-! ## JavaScript values -/

mutual
/-- JavaScript values, numbers restricted to integers. -/
inductive JSVal : Type
  | undefined : JSVal
  | null : JSVal
  | bool (b : Bool) : JSVal
  | num (n : Int) : JSVal
  | str (s : String) : JSVal
  | obj (fields : Fields) : JSVal
/-- Ordered own properties of an object. -/
inductive Fields : Type
  | nil : Fields
  | cons (key : String) (value : JSVal) (rest : Fields) : Fields
end

/-- First property named `k`, `undefined` when there is none. -/
def Fields.lookup (k : String) : Fields → JSVal
  | .nil => .undefined
  | .cons key value rest => if key = k then value else Fields.lookup k rest

/-- The `TypeError` thrown when a property of `undefined` or `null` is read. -/
def typeError : JSVal :=
  .obj (.cons "name" (.str "TypeError") .nil)

/-- JavaScript `ToBoolean`. -/
def truthy : JSVal → Bool
  | .undefined => false
  | .null => false
  | .bool b => b
  | .num n => n != 0
  | .str s => s != ""
  | .obj _ => true

/-- Whether a value is `undefined` or `null`. -/
def isNullish : JSVal → Bool
  | .undefined => true
  | .null => true
  | _ => false

/-- Property read `v.k` for the keys the controller reads: throws on
`undefined` and `null`; booleans, numbers and strings have no such property;
objects answer with the property or `undefined`. -/
def getProp (v : JSVal) (k : String) : Except JSVal JSVal :=
  match v with
  | .undefined => .error typeError
  | .null => .error typeError
  | .obj fs => .ok (fs.lookup k)
  | _ => .ok .undefined

/-- Ember path step `get(v, k)`: like `getProp`, but `undefined` instead of a
throw when `v` is `undefined` or `null`. -/
def emberGet (v : JSVal) (k : String) : JSVal :=
  match v with
  | .obj fs => fs.lookup k
  | _ => .undefined

/-- Strict equality `v === s` against a string literal. -/
def strictEqStr (v : JSVal) (s : String) : Bool :=
  match v with
  | .str t => t == s
  | _ => false

/-- JavaScript `a || b`. -/
def jsOr (a b : JSVal) : JSVal :=
  if truthy a then a else b

/-- JavaScript `ToString`, as applied to a template-literal substitution. -/
def toJSString : JSVal → String
  | .undefined => "undefined"
  | .null => "null"
  | .bool true => "true"
  | .bool false => "false"
  | .num n => toString n
  | .str s => s
  | .obj _ => "[object Object]"

/-! ## `JSON.stringify` -/

/-- Hexadecimal digit of a number below sixteen. -/
def hexDigit (n : Nat) : Char :=
  if n < 10 then Char.ofNat (48 + n) else Char.ofNat (87 + n)

/-- JSON escape of one character. -/
def escapeChar (c : Char) : List Char :=
  if c = '"' then ['\\', '"']
  else if c = '\\' then ['\\', '\\']
  else if c = '\n' then ['\\', 'n']
  else if c = '\r' then ['\\', 'r']
  else if c = '\t' then ['\\', 't']
  else if c.toNat = 8 then ['\\', 'b']
  else if c.toNat = 12 then ['\\', 'f']
  else if c.toNat < 32 then
    ['\\', 'u', '0', '0', hexDigit (c.toNat / 16), hexDigit (c.toNat % 16)]
  else [c]

/-- JSON string literal for `s`. -/
def quoteJSON (s : String) : String :=
  String.mk ('"' :: (s.data.flatMap escapeChar ++ ['"']))

mutual
/-- Result of `JSON.stringify` on a value; `none` stands for `undefined`. -/
def stringifyVal : JSVal → Option String
  | .undefined => none
  | .null => some "null"
  | .bool true => some "true"
  | .bool false => some "false"
  | .num n => some (toString n)
  | .str s => some (quoteJSON s)
  | .obj fs => some ("\x7b" ++ String.intercalate "," (stringifyFields fs) ++ "\x7d")
/-- Serialized members of an object; a member whose value serializes to
`undefined` is left out. -/
def stringifyFields : Fields → List String
  | .nil => []
  | .cons k v rest =>
    match stringifyVal v with
    | none => stringifyFields rest
    | some t => (quoteJSON k ++ ":" ++ t) :: stringifyFields rest
end

/-- Result of `JSON.stringify(v)` as a JavaScript value. -/
def JSONstringify (v : JSVal) : JSVal :=
  match stringifyVal v with
  | none => .undefined
  | some t => .str t

/-! ## Collaborators and controller state -/

/-- State of a promise once the job queue has drained. -/
inductive Settled : Type
  | fulfilled (v : JSVal) : Settled
  | rejected (e : JSVal) : Settled
  | pending : Settled

/-- What `loader.post` does with a request: throw synchronously, or return a
promise. -/
inductive PostOutcome : Type
  | throws (e : JSVal) : PostOutcome
  | returns (p : Settled) : PostOutcome

/-- Calls made to the collaborators, in order. -/
inductive Event : Type
  | post (url : String) (body : Option JSVal) (config : Option JSVal) : Event
  | notifySuccess (message : JSVal) : Event
  | notifyError (message : JSVal) : Event
  | transition (route : String) (arg : JSVal) : Event
  | warn (e : JSVal) : Event

/-- Services injected into the controller and the build-time environment. -/
structure Env where
  /-- `loader.post(url, data, config)`. -/
  post : String → Option JSVal → Option JSVal → PostOutcome
  /-- `l10n.t(message)`. -/
  t : String → String
  /-- `ENV.APP.apiHost`. -/
  apiHost : JSVal

/-- The settings service: the two Omise public keys, as the values
`this.get('settings.omiseLivePublic')` and `this.get('settings.omiseTestPublic')`
give. -/
structure Settings where
  omiseLivePublic : JSVal
  omiseTestPublic : JSVal

/-- Controller state together with the trace of collaborator calls. -/
structure Controller where
  /-- Value of `this.get('model.order')`. -/
  order : JSVal
  settings : Settings
  isLoading : Bool
  trace : List Event

/-- Append one collaborator call to the trace. -/
def Controller.emit (c : Controller) (e : Event) : Controller :=
  { c with trace := c.trace ++ [e] }

/-- `this.set('isLoading', b)`. -/
def Controller.setLoading (c : Controller) (b : Bool) : Controller :=
  { c with isLoading := b }

/-! ## Computed properties -/

/-- A property declared as `computed(key, ..., getter)`.  A dependent key such
as `'model.order.paymentMode'` is written as its segments. -/
structure Computed where
  name : String
  keys : List (List String)
  getter : Controller → JSVal

/-- Value of `this.get('model.order.paymentMode')`. -/
def paymentMode (c : Controller) : JSVal :=
  emberGet c.order "paymentMode"

def isStripe : Computed :=
  { name := "isStripe",
    keys := [["model", "order", "paymentMode"]],
    getter := fun c => .bool (strictEqStr (paymentMode c) "stripe") }

def isPaypal : Computed :=
  { name := "isPaypal",
    keys := [["model", "order", "paymentMode"]],
    getter := fun c => .bool (strictEqStr (paymentMode c) "paypal") }

def isOmise : Computed :=
  { name := "isOmise",
    keys := [["model", "order", "paymentMode"]],
    getter := fun c => .bool (strictEqStr (paymentMode c) "omise") }

def isAliPay : Computed :=
  { name := "isAliPay",
    keys := [["model", "order"]],
    getter := fun c => .bool (strictEqStr (paymentMode c) "alipay") }

def publicKeyOmise : Computed :=
  { name := "publicKeyOmise",
    keys := [["settings", "omiseLivePublic"], ["settings", "omiseLivePublic"]],
    getter := fun c => jsOr c.settings.omiseLivePublic c.settings.omiseTestPublic }

def omiseFormAction (env : Env) : Computed :=
  { name := "omiseFormAction",
    keys := [["model", "order", "identifier"]],
    getter := fun c =>
      let identifier := emberGet c.order "identifier"
      .str (toJSString env.apiHost ++ "/v1/orders/" ++ toJSString identifier
        ++ "/omise-checkout") }

/-- A cached value of a computed property, with the dependent keys that
guard it. -/
structure CacheEntry where
  name : String
  keys : List (List String)
  value : JSVal

/-- A controller instance: its state and the computed values cached so far. -/
structure Instance where
  state : Controller
  cache : List CacheEntry

/-- An instance none of whose computed properties has been read. -/
def Instance.fresh (c : Controller) : Instance :=
  { state := c, cache := [] }

/-- The cached value of the property called `name`, if there is one. -/
def cachedValue (name : String) : List CacheEntry → Option JSVal
  | [] => none
  | e :: rest => if e.name = name then some e.value else cachedValue name rest

/-- Reading a computed property, `this.get(name)`: the cached value when there
is one, otherwise the getter's value on the current state, which is cached. -/
def Instance.read (s : Instance) (p : Computed) : JSVal × Instance :=
  match cachedValue p.name s.cache with
  | some v => (v, s)
  | none =>
    let v := p.getter s.state
    (v, { s with cache := { name := p.name, keys := p.keys, value := v } :: s.cache })

/-- Whether a change at `path` notifies the dependent key `key`: the changed
path is the key or one of the objects on the way to it. -/
def notifies : List String → List String → Bool
  | [], _ => true
  | _ :: _, [] => false
  | a :: path, b :: key => a == b && notifies path key

/-- Replace or add the own property `k`. -/
def Fields.set (k : String) (v : JSVal) : Fields → Fields
  | .nil => .cons k v .nil
  | .cons key value rest =>
    if key = k then .cons key v rest else .cons key value (Fields.set k v rest)

/-- The state after `set(path, v)`, for the paths the computed properties
depend on. -/
def writeState (c : Controller) (path : List String) (v : JSVal) : Controller :=
  match path with
  | ["model", "order"] => { c with order := v }
  | ["model", "order", k] =>
    match c.order with
    | .obj fs => { c with order := .obj (fs.set k v) }
    | _ => c
  | ["settings", "omiseLivePublic"] =>
    { c with settings := { c.settings with omiseLivePublic := v } }
  | ["settings", "omiseTestPublic"] =>
    { c with settings := { c.settings with omiseTestPublic := v } }
  | _ => c

/-- Writing a property, `set(path, v)`: the state changes and every cached
value guarded by a dependent key that the change notifies is dropped. -/
def Instance.write (s : Instance) (path : List String) (v : JSVal) : Instance :=
  { state := writeState s.state path v,
    cache := s.cache.filter (fun e => !(e.keys.any (notifies path))) }

/-- Reading the four payment-mode flags, in the order Stripe, Paypal, Omise,
AliPay. -/
def readFlags (s : Instance) : List JSVal × Instance :=
  let r1 := s.read isStripe
  let r2 := r1.2.read isPaypal
  let r3 := r2.2.read isOmise
  let r4 := r3.2.read isAliPay
  ([r1.1, r2.1, r3.1, r4.1], r4.2)

/-! ## Promise chains -/

/-- A promise reaction: runs on the controller, returns or throws. -/
abbrev Handler := JSVal → Controller → Except JSVal JSVal × Controller

/-- The promise `p.then(h)`. -/
def thenP (p : Settled) (h : Handler) (c : Controller) : Settled × Controller :=
  match p with
  | .fulfilled v =>
    match h v c with
    | (.ok r, c2) => (.fulfilled r, c2)
    | (.error e, c2) => (.rejected e, c2)
  | .rejected e => (.rejected e, c)
  | .pending => (.pending, c)

/-- The promise `p.catch(h)`. -/
def catchP (p : Settled) (h : Handler) (c : Controller) : Settled × Controller :=
  match p with
  | .fulfilled v => (.fulfilled v, c)
  | .rejected e =>
    match h e c with
    | (.ok r, c2) => (.fulfilled r, c2)
    | (.error e2, c2) => (.rejected e2, c2)
  | .pending => (.pending, c)

/-- The promise `p.finally(h)`: `h` takes no argument and the settlement of `p`
passes through unless `h` throws. -/
def finallyP (p : Settled) (h : Handler) (c : Controller) : Settled × Controller :=
  match p with
  | .fulfilled v =>
    match h .undefined c with
    | (.ok _, c2) => (.fulfilled v, c2)
    | (.error e2, c2) => (.rejected e2, c2)
  | .rejected e =>
    match h .undefined c with
    | (.ok _, c2) => (.rejected e, c2)
    | (.error e2, c2) => (.rejected e2, c2)
  | .pending => (.pending, c)

/-- How an action ended: the controller afterwards, the exception that left
the action synchronously, and the last promise of the chain it built. -/
structure ActionOutcome where
  controller : Controller
  threw : Option JSVal
  promise : Option Settled

/-! ## Actions -/

/-- Reaction of `aliPayCheckout` to the fulfilled source-creation request. -/
def aliPayThen (order_identifier : JSVal) : Handler := fun charge c =>
  match getProp charge "status" with
  | .error e => (.error e, c)
  | .ok status =>
    if truthy status then
      let c1 := c.emit (.notifySuccess (.str "Payment has succeeded"))
      (.ok .undefined, c1.emit (.transition "orders.view" order_identifier))
    else
      (.ok .undefined, c.emit (.notifyError (.str "Payment has failed")))

def aliPayCheckout (env : Env) (c : Controller) (order_identifier : JSVal) : ActionOutcome :=
  let url := "/create_source/" ++ toJSString order_identifier
  let c1 := c.emit (.post url none none)
  match env.post url none none with
  | .throws e => { controller := c1, threw := some e, promise := none }
  | .returns p =>
    let r := thenP p (aliPayThen order_identifier) c1
    { controller := r.2, threw := none, promise := some r.1 }

/-- The object literal assigned to `chargePayload`. -/
def chargePayloadObject (tokenId : JSVal) : JSVal :=
  .obj (.cons "data"
      (.obj (.cons "attributes"
          (.obj (.cons "stripe" tokenId
            (.cons "paypal_payer_id" .null
            (.cons "paypal_payment_id" .null .nil))))
        (.cons "type" (.str "charge") .nil)))
    .nil)

/-- The object literal assigned to `config`. -/
def chargeConfig : JSVal :=
  .obj (.cons "skipDataTransform" (.bool true) .nil)

/-- Value of `charge.data.attributes.k`. -/
def chargeAttribute (charge : JSVal) (k : String) : Except JSVal JSVal :=
  match getProp charge "data" with
  | .error e => .error e
  | .ok d =>
    match getProp d "attributes" with
    | .error e => .error e
    | .ok a => getProp a k

/-- Reaction of `processStripeToken` to the fulfilled charge request. -/
def chargeThen (order : JSVal) : Handler := fun charge c =>
  match chargeAttribute charge "status" with
  | .error e => (.error e, c)
  | .ok status =>
    if truthy status then
      match chargeAttribute charge "message" with
      | .error e => (.error e, c)
      | .ok message =>
        let c1 := c.emit (.notifySuccess message)
        match getProp order "identifier" with
        | .error e => (.error e, c1)
        | .ok identifier => (.ok .undefined, c1.emit (.transition "orders.view" identifier))
    else
      match chargeAttribute charge "message" with
      | .error e => (.error e, c)
      | .ok message => (.ok .undefined, c.emit (.notifyError message))

/-- The `catch` reaction of `processStripeToken`. -/
def chargeCatch (env : Env) : Handler := fun e c =>
  let c1 := c.emit (.warn e)
  (.ok .undefined, c1.emit (.notifyError (.str (env.t "An unexpected error has occurred"))))

/-- The `finally` reaction of `processStripeToken`. -/
def chargeFinally : Handler := fun _ c =>
  (.ok .undefined, c.setLoading false)

/-- The chain `p.then(...).catch(...).finally(...)` of `processStripeToken`. -/
def chargeChain (env : Env) (order : JSVal) (p : Settled) (c : Controller) :
    Settled × Controller :=
  let r1 := thenP p (chargeThen order) c
  let r2 := catchP r1.1 (chargeCatch env) r1.2
  finallyP r2.1 chargeFinally r2.2

def processStripeToken (env : Env) (c : Controller) (token : JSVal) : ActionOutcome :=
  let c1 := c.setLoading true
  let order := c1.order
  match getProp token "id" with
  | .error e => { controller := c1, threw := some e, promise := none }
  | .ok tokenId =>
    let chargePayload := JSONstringify (chargePayloadObject tokenId)
    match getProp order "identifier" with
    | .error e => { controller := c1, threw := some e, promise := none }
    | .ok identifier =>
      let url := "orders/" ++ toJSString identifier ++ "/charge"
      let c2 := c1.emit (.post url (some chargePayload) (some chargeConfig))
      match env.post url (some chargePayload) (some chargeConfig) with
      | .throws e => { controller := c2, threw := some e, promise := none }
      | .returns p =>
        let r := chargeChain env order p c2
        { controller := r.2, threw := none, promise := some r.1 }

/-! ## Reading a trace -/

def Event.isNotification : Event → Bool
  | .notifySuccess _ => true
  | .notifyError _ => true
  | _ => false

def Event.isTransition : Event → Bool
  | .transition _ _ => true
  | _ => false

def Event.isPost : Event → Bool
  | .post _ _ _ => true
  | _ => false

/-- Notifications of a trace, in order. -/
def notifications (tr : List Event) : List Event :=
  tr.filter Event.isNotification

/-- Navigations of a trace, in order. -/
def navigations (tr : List Event) : List Event :=
  tr.filter Event.isTransition

/-- Remote requests of a trace, in order. -/
def posts (tr : List Event) : List Event :=
  tr.filter Event.isPost

/-- The events an action appended to a trace of length `n`. -/
def emitted (n : Nat) (out : ActionOutcome) : List Event :=
  out.controller.trace.drop n

/-- The payment modes the controller knows. -/
def knownModes : List String :=
  ["stripe", "paypal", "omise", "alipay"]

/-! ## Sample inputs -/

/-- An order whose identifier is `o1`, to be paid through Stripe. -/
def sampleOrder : JSVal :=
  .obj (.cons "identifier" (.str "o1") (.cons "paymentMode" (.str "stripe") .nil))

/-- A Stripe token. -/
def sampleToken : JSVal :=
  .obj (.cons "id" (.str "tok_1") .nil)

/-- An idle controller showing `sampleOrder`. -/
def sampleController : Controller :=
  { order := sampleOrder,
    settings := { omiseLivePublic := .undefined, omiseTestPublic := .str "pkey_test_1" },
    isLoading := false,
    trace := [] }

/-- A charge response `{data: {attributes: {status, message}}}`. -/
def chargeResponse (status message : JSVal) : JSVal :=
  .obj (.cons "data"
    (.obj (.cons "attributes"
      (.obj (.cons "status" status (.cons "message" message .nil))) .nil)) .nil)

/-- An environment whose loader answers every request with `o` and whose
translation is the identity. -/
def sampleEnv (o : PostOutcome) : Env :=
  { post := fun _ _ _ => o, t := fun m => m, apiHost := .str "https://api.example" }

/-- The instance after the four flags were read while the order's payment
mode was `stripe`. -/
def flagsShown : Instance :=
  (readFlags (Instance.fresh sampleController)).2

/-- The same instance after `set('model.order.paymentMode', 'alipay')`. -/
def modeSwitched : Instance :=
  flagsShown.write ["model", "order", "paymentMode"] (.str "alipay")

/-- The instance after `publicKeyOmise` was read with no live key and the test
key `pkey_test_1`. -/
def keyShown : Instance :=
  ((Instance.fresh sampleController).read publicKeyOmise).2

/-- The same instance after `set('settings.omiseTestPublic', 'pkey_test_2')`. -/
def testKeyReplaced : Instance :=
  keyShown.write ["settings", "omiseTestPublic"] (.str "pkey_test_2")

/-! ## Theorems -/

/-- Text of the charge payload around the serialized token id. -/
theorem JSONstringify_chargePayloadObject (tokenId : JSVal) (j : String)
    (hj : stringifyVal tokenId = some j) :
    JSONstringify (chargePayloadObject tokenId)
      = .str ("\x7b\"data\":\x7b\"attributes\":\x7b\"stripe\":" ++ j
          ++ ",\"paypal_payer_id\":null,\"paypal_payment_id\":null\x7d,\"type\":\"charge\"\x7d\x7d") := by
  have q1 : quoteJSON "data" = "\"data\"" := by decide
  have q2 : quoteJSON "attributes" = "\"attributes\"" := by decide
  have q3 : quoteJSON "stripe" = "\"stripe\"" := by decide
  have q4 : quoteJSON "paypal_payer_id" = "\"paypal_payer_id\"" := by decide
  have q5 : quoteJSON "paypal_payment_id" = "\"paypal_payment_id\"" := by decide
  have q6 : quoteJSON "type" = "\"type\"" := by decide
  have q7 : quoteJSON "charge" = "\"charge\"" := by decide
  simp only [JSONstringify, chargePayloadObject, stringifyVal, stringifyFields, hj, q1, q2, q3,
    q4, q5, q6, q7, String.intercalate, String.intercalate.go]
  apply congrArg
  apply String.ext
  simp only [String.data_append, List.append_assoc]
  rfl

/-- The reactions of the charge chain only append to the trace, and append no
remote request. -/
theorem chargeChain_trace (env : Env) (order : JSVal) (p : Settled) (c : Controller) :
    ∃ evs, (chargeChain env order p c).2.trace = c.trace ++ evs ∧ posts evs = [] := by
  cases p with
  | pending => exact ⟨[], by simp [chargeChain, thenP, catchP, finallyP], rfl⟩
  | rejected e =>
    exact ⟨[.warn e, .notifyError (.str (env.t "An unexpected error has occurred"))],
      by simp [chargeChain, thenP, catchP, finallyP, chargeCatch, chargeFinally,
        Controller.emit, Controller.setLoading], rfl⟩
  | fulfilled v =>
    cases hs : chargeAttribute v "status" with
    | error e =>
      exact ⟨[.warn e, .notifyError (.str (env.t "An unexpected error has occurred"))],
        by simp [hs, chargeChain, thenP, catchP, finallyP, chargeThen, chargeCatch, chargeFinally,
          Controller.emit, Controller.setLoading], rfl⟩
    | ok st =>
      cases hm : chargeAttribute v "message" with
      | error e =>
        exact ⟨[.warn e, .notifyError (.str (env.t "An unexpected error has occurred"))],
          by cases ht : truthy st <;> simp [hs, hm, ht, chargeChain, thenP, catchP, finallyP, chargeThen, chargeCatch, chargeFinally,
          Controller.emit, Controller.setLoading], rfl⟩
      | ok msg =>
        cases ht : truthy st with
        | false => exact ⟨[.notifyError msg], by simp [hs, hm, ht, chargeChain, thenP, catchP, finallyP, chargeThen, chargeCatch, chargeFinally,
          Controller.emit, Controller.setLoading], rfl⟩
        | true =>
          cases hi : getProp order "identifier" with
          | error e =>
            exact ⟨[.notifySuccess msg, .warn e,
                .notifyError (.str (env.t "An unexpected error has occurred"))],
              by simp [hs, hm, ht, hi, chargeChain, thenP, catchP, finallyP, chargeThen, chargeCatch, chargeFinally,
          Controller.emit, Controller.setLoading], rfl⟩
          | ok i =>
            exact ⟨[.notifySuccess msg, .transition "orders.view" i],
              by simp [hs, hm, ht, hi, chargeChain, thenP, catchP, finallyP, chargeThen, chargeCatch, chargeFinally,
          Controller.emit, Controller.setLoading], rfl⟩



/-- Once the charge promise has settled, the chain has cleared `isLoading`. -/
theorem chargeChain_clears_loading (env : Env) (order : JSVal) (p : Settled)
    (c : Controller) (hp : p ≠ .pending) :
    (chargeChain env order p c).2.isLoading = false := by
  cases p with
  | pending => exact absurd rfl hp
  | rejected e =>
    simp [chargeChain, thenP, catchP, finallyP, chargeThen, chargeCatch, chargeFinally,
          Controller.emit, Controller.setLoading]
  | fulfilled v =>
    cases hs : chargeAttribute v "status" with
    | error e => simp [hs, chargeChain, thenP, catchP, finallyP, chargeThen, chargeCatch, chargeFinally,
          Controller.emit, Controller.setLoading]
    | ok st =>
      cases hm : chargeAttribute v "message" with
      | error e => cases ht : truthy st <;> simp [hs, hm, ht, chargeChain, thenP, catchP, finallyP, chargeThen, chargeCatch, chargeFinally,
          Controller.emit, Controller.setLoading]
      | ok msg =>
        cases ht : truthy st with
        | false => simp [hs, hm, ht, chargeChain, thenP, catchP, finallyP, chargeThen, chargeCatch, chargeFinally,
          Controller.emit, Controller.setLoading]
        | true =>
          cases hi : getProp order "identifier" <;> simp [hs, hm, ht, hi, chargeChain, thenP, catchP, finallyP, chargeThen, chargeCatch, chargeFinally,
          Controller.emit, Controller.setLoading]

/-- On every asynchronous exit path of `processStripeToken` (the charge promise
fulfilled or rejected) nothing is thrown out of the action and `isLoading` is
false at the end. -/
theorem processStripeToken_settled_clears_loading (env : Env) (c : Controller)
    (token tokenId identifier : JSVal) (p : Settled)
    (htok : getProp token "id" = .ok tokenId)
    (hord : getProp c.order "identifier" = .ok identifier)
    (hpost : env.post ("orders/" ++ toJSString identifier ++ "/charge")
      (some (JSONstringify (chargePayloadObject tokenId))) (some chargeConfig)
        = .returns p)
    (hp : p ≠ .pending) :
    (processStripeToken env c token).controller.isLoading = false ∧
      (processStripeToken env c token).threw = none := by
  have h := chargeChain_clears_loading env c.order p
    ((c.setLoading true).emit (.post ("orders/" ++ toJSString identifier ++ "/charge")
      (some (JSONstringify (chargePayloadObject tokenId))) (some chargeConfig))) hp
  simp [processStripeToken, htok, hord, hpost, Controller.setLoading, Controller.emit] at h ⊢
  exact h

/-- Whatever the loader does, `processStripeToken` with a readable token and
order appends exactly one remote request, the charge POST. -/
theorem processStripeToken_posts (env : Env) (c : Controller)
    (token tokenId identifier : JSVal)
    (htok : getProp token "id" = .ok tokenId)
    (hord : getProp c.order "identifier" = .ok identifier) :
    posts (emitted c.trace.length (processStripeToken env c token))
      = [.post ("orders/" ++ toJSString identifier ++ "/charge")
          (some (JSONstringify (chargePayloadObject tokenId))) (some chargeConfig)] := by
  cases ho : env.post ("orders/" ++ toJSString identifier ++ "/charge")
      (some (JSONstringify (chargePayloadObject tokenId))) (some chargeConfig) with
  | throws e =>
    simp [processStripeToken, emitted, posts, htok, hord, ho, Controller.emit,
      Controller.setLoading, Event.isPost]
  | returns p =>
    obtain ⟨evs, h, hp⟩ := chargeChain_trace env c.order p
      ((c.setLoading true).emit (.post ("orders/" ++ toJSString identifier ++ "/charge")
        (some (JSONstringify (chargePayloadObject tokenId))) (some chargeConfig)))
    simp only [posts] at hp
    simp [processStripeToken, emitted, posts, htok, hord, ho, Controller.emit,
      Controller.setLoading, Event.isPost] at h ⊢
    simp [h, hp, Event.isPost]

/-- C1: when the charge request of `processStripeToken` is fulfilled with a
response whose `data.attributes` carries `status` and `message`, a truthy
status yields exactly one notification, a success carrying the message, and
exactly one navigation to `orders.view` with the order's identifier; a falsy
status yields exactly one notification, an error carrying the message, and no
navigation. -/
theorem processStripeToken_charge_resolved (env : Env) (c : Controller)
    (token tokenId identifier response d a status message : JSVal)
    (htok : getProp token "id" = .ok tokenId)
    (hord : getProp c.order "identifier" = .ok identifier)
    (hpost : env.post ("orders/" ++ toJSString identifier ++ "/charge")
      (some (JSONstringify (chargePayloadObject tokenId))) (some chargeConfig)
        = .returns (.fulfilled response))
    (hd : getProp response "data" = .ok d)
    (ha : getProp d "attributes" = .ok a)
    (hs : getProp a "status" = .ok status)
    (hm : getProp a "message" = .ok message) :
    (truthy status = true →
      notifications (emitted c.trace.length (processStripeToken env c token))
          = [.notifySuccess message] ∧
        navigations (emitted c.trace.length (processStripeToken env c token))
          = [.transition "orders.view" identifier]) ∧
    (truthy status = false →
      notifications (emitted c.trace.length (processStripeToken env c token))
          = [.notifyError message] ∧
        navigations (emitted c.trace.length (processStripeToken env c token)) = []) := by
  constructor
  · intro ht
    simp [processStripeToken, chargeChain, emitted, notifications, navigations, htok, hord, hpost, hd, ha,
      hs, hm, ht, thenP, catchP, finallyP, chargeThen, chargeCatch, chargeFinally,
      chargeAttribute, Controller.emit, Controller.setLoading, Event.isNotification,
      Event.isTransition]
  · intro hf
    simp [processStripeToken, chargeChain, emitted, notifications, navigations, htok, hord, hpost, hd, ha,
      hs, hm, hf, thenP, catchP, finallyP, chargeThen, chargeCatch, chargeFinally,
      chargeAttribute, Controller.emit, Controller.setLoading, Event.isNotification,
      Event.isTransition]

/-- C1 at the response `{status: true, message: "ok"}`. -/
theorem processStripeToken_charge_resolved_witness :
    notifications (emitted sampleController.trace.length
        (processStripeToken
          (sampleEnv (.returns (.fulfilled (chargeResponse (.bool true) (.str "ok")))))
          sampleController sampleToken))
      = [.notifySuccess (.str "ok")] ∧
    navigations (emitted sampleController.trace.length
        (processStripeToken
          (sampleEnv (.returns (.fulfilled (chargeResponse (.bool true) (.str "ok")))))
          sampleController sampleToken))
      = [.transition "orders.view" (.str "o1")] :=
  (processStripeToken_charge_resolved
    (sampleEnv (.returns (.fulfilled (chargeResponse (.bool true) (.str "ok")))))
    sampleController sampleToken (.str "tok_1") (.str "o1")
    (chargeResponse (.bool true) (.str "ok"))
    (.obj (.cons "attributes"
      (.obj (.cons "status" (.bool true) (.cons "message" (.str "ok") .nil))) .nil))
    (.obj (.cons "status" (.bool true) (.cons "message" (.str "ok") .nil)))
    (.bool true) (.str "ok") rfl rfl rfl rfl rfl rfl rfl).1 rfl

/-- C2: when the charge request of `processStripeToken` is rejected with an
error `e`, exactly one notification is emitted, the error notification with the
translation of the fixed message, whatever `e` is; nothing navigates, the
rejection is consumed, and `isLoading` is false afterwards. -/
theorem processStripeToken_charge_rejected (env : Env) (c : Controller)
    (token tokenId identifier e : JSVal)
    (htok : getProp token "id" = .ok tokenId)
    (hord : getProp c.order "identifier" = .ok identifier)
    (hpost : env.post ("orders/" ++ toJSString identifier ++ "/charge")
      (some (JSONstringify (chargePayloadObject tokenId))) (some chargeConfig)
        = .returns (.rejected e)) :
    notifications (emitted c.trace.length (processStripeToken env c token))
        = [.notifyError (.str (env.t "An unexpected error has occurred"))] ∧
      navigations (emitted c.trace.length (processStripeToken env c token)) = [] ∧
      (processStripeToken env c token).controller.isLoading = false ∧
      (processStripeToken env c token).threw = none ∧
      (processStripeToken env c token).promise = some (.fulfilled .undefined) := by
  simp [processStripeToken, chargeChain, emitted, notifications, navigations, htok, hord, hpost,
    thenP, catchP, finallyP, chargeCatch, chargeFinally, Controller.emit,
    Controller.setLoading, Event.isNotification, Event.isTransition]

/-- C2 at the rejection `"connection reset"`. -/
theorem processStripeToken_charge_rejected_witness :
    notifications (emitted sampleController.trace.length
        (processStripeToken (sampleEnv (.returns (.rejected (.str "connection reset"))))
          sampleController sampleToken))
        = [.notifyError (.str "An unexpected error has occurred")] ∧
      navigations (emitted sampleController.trace.length
        (processStripeToken (sampleEnv (.returns (.rejected (.str "connection reset"))))
          sampleController sampleToken)) = [] ∧
      (processStripeToken (sampleEnv (.returns (.rejected (.str "connection reset"))))
          sampleController sampleToken).controller.isLoading = false ∧
      (processStripeToken (sampleEnv (.returns (.rejected (.str "connection reset"))))
          sampleController sampleToken).threw = none ∧
      (processStripeToken (sampleEnv (.returns (.rejected (.str "connection reset"))))
          sampleController sampleToken).promise = some (.fulfilled .undefined) :=
  processStripeToken_charge_rejected
    (sampleEnv (.returns (.rejected (.str "connection reset"))))
    sampleController sampleToken (.str "tok_1") (.str "o1") (.str "connection reset")
    rfl rfl rfl

/-- C3: with the token absent, `processStripeToken` sets `isLoading`, throws a
`TypeError` while building the payload, and issues no request: the flag stays
true.  The same holds when `loader.post` throws before returning a promise. -/
theorem processStripeToken_sync_fault_keeps_loading :
    (processStripeToken (sampleEnv (.returns .pending))
        sampleController .undefined).controller.isLoading = true ∧
      (processStripeToken (sampleEnv (.returns .pending))
        sampleController .undefined).threw = some typeError ∧
      (processStripeToken (sampleEnv (.returns .pending))
        sampleController .undefined).controller.trace = [] ∧
      (processStripeToken (sampleEnv (.throws (.str "offline")))
        sampleController sampleToken).controller.isLoading = true ∧
      (processStripeToken (sampleEnv (.throws (.str "offline")))
        sampleController sampleToken).threw = some (.str "offline") := by
  refine ⟨rfl, rfl, rfl, rfl, rfl⟩

/-- Getters of the four flags on the current state: for a known mode each
getter answers whether it is the one named by the mode; for any other value,
an absent one included, all four answer false. -/
theorem flag_getters (c : Controller) :
    (∀ m ∈ knownModes, paymentMode c = .str m →
      isStripe.getter c = .bool (decide (m = "stripe")) ∧
        isPaypal.getter c = .bool (decide (m = "paypal")) ∧
        isOmise.getter c = .bool (decide (m = "omise")) ∧
        isAliPay.getter c = .bool (decide (m = "alipay"))) ∧
    ((∀ m ∈ knownModes, paymentMode c ≠ .str m) →
      isStripe.getter c = .bool false ∧ isPaypal.getter c = .bool false ∧
        isOmise.getter c = .bool false ∧ isAliPay.getter c = .bool false) := by
  constructor
  · intro m hm h
    simp only [knownModes, List.mem_cons, List.mem_singleton, List.not_mem_nil, or_false] at hm
    rcases hm with rfl | rfl | rfl | rfl <;>
      simp [isStripe, isPaypal, isOmise, isAliPay, h, strictEqStr]
  · intro h
    simp only [knownModes, List.mem_cons, List.mem_singleton, List.not_mem_nil, or_false,
      forall_eq_or_imp, forall_eq] at h
    obtain ⟨h1, h2, h3, h4⟩ := h
    cases hp : paymentMode c <;>
      simp_all [isStripe, isPaypal, isOmise, isAliPay, strictEqStr]

/-- C4: the flags are read while the order's payment mode is `stripe` (only
`isStripe` is true); then `model.order.paymentMode` is set to `alipay` on the
same order.  `isStripe`, keyed on `model.order.paymentMode`, is recomputed to
false, but `isAliPay`, keyed on `model.order`, keeps its cached false: with the
mode `alipay` all four flags are false, although the getter of `isAliPay`
answers true on that state. -/
theorem isAliPay_stale_after_mode_change :
    (readFlags (Instance.fresh sampleController)).1
        = [.bool true, .bool false, .bool false, .bool false] ∧
      paymentMode modeSwitched.state = .str "alipay" ∧
      (readFlags modeSwitched).1
        = [.bool false, .bool false, .bool false, .bool false] ∧
      isAliPay.getter modeSwitched.state = .bool true := by
  refine ⟨rfl, rfl, rfl, rfl⟩

/-- C5: when the source-creation request of `aliPayCheckout(id)` is fulfilled
with a response whose `status` is truthy, the action emits the success
notification, navigates to `orders.view` with the identifier it was given, and
its only remote request is the POST to `/create_source/{id}`. -/
theorem aliPayCheckout_succeeds (env : Env) (c : Controller)
    (order_identifier response status : JSVal)
    (hpost : env.post ("/create_source/" ++ toJSString order_identifier) none none
      = .returns (.fulfilled response))
    (hs : getProp response "status" = .ok status)
    (ht : truthy status = true) :
    emitted c.trace.length (aliPayCheckout env c order_identifier)
        = [.post ("/create_source/" ++ toJSString order_identifier) none none,
            .notifySuccess (.str "Payment has succeeded"),
            .transition "orders.view" order_identifier] ∧
      posts (emitted c.trace.length (aliPayCheckout env c order_identifier))
        = [.post ("/create_source/" ++ toJSString order_identifier) none none] := by
  simp [aliPayCheckout, emitted, posts, hpost, hs, ht, thenP, aliPayThen, Controller.emit,
    Event.isPost]

/-- C5 at the response `{status: true}` for the order `o1`. -/
theorem aliPayCheckout_succeeds_witness :
    emitted sampleController.trace.length
        (aliPayCheckout
          (sampleEnv (.returns (.fulfilled (.obj (.cons "status" (.bool true) .nil)))))
          sampleController (.str "o1"))
        = [.post ("/create_source/" ++ toJSString (.str "o1")) none none,
            .notifySuccess (.str "Payment has succeeded"),
            .transition "orders.view" (.str "o1")] ∧
      posts (emitted sampleController.trace.length
        (aliPayCheckout
          (sampleEnv (.returns (.fulfilled (.obj (.cons "status" (.bool true) .nil)))))
          sampleController (.str "o1")))
        = [.post ("/create_source/" ++ toJSString (.str "o1")) none none] :=
  aliPayCheckout_succeeds
    (sampleEnv (.returns (.fulfilled (.obj (.cons "status" (.bool true) .nil)))))
    sampleController (.str "o1") (.obj (.cons "status" (.bool true) .nil)) (.bool true)
    rfl rfl rfl

/-- C6: when the source-creation request of `aliPayCheckout` is rejected, the
action emits no notification at all and the promise it built stays rejected
with the same error, unhandled; `processStripeToken` at the same rejection
emits the generic error notification and ends with a fulfilled promise. -/
theorem aliPayCheckout_rejection_unhandled :
    notifications (aliPayCheckout (sampleEnv (.returns (.rejected (.str "connection reset"))))
        sampleController (.str "o1")).controller.trace = [] ∧
      (aliPayCheckout (sampleEnv (.returns (.rejected (.str "connection reset"))))
        sampleController (.str "o1")).promise = some (.rejected (.str "connection reset")) ∧
      notifications (processStripeToken
        (sampleEnv (.returns (.rejected (.str "connection reset"))))
        sampleController sampleToken).controller.trace
        = [.notifyError (.str "An unexpected error has occurred")] ∧
      (processStripeToken (sampleEnv (.returns (.rejected (.str "connection reset"))))
        sampleController sampleToken).promise = some (.fulfilled .undefined) := by
  refine ⟨rfl, rfl, rfl, rfl⟩

/-- Getter of `publicKeyOmise` on the current settings: the live key when it
is truthy, the test key otherwise. -/
theorem publicKeyOmise_getter (c : Controller) :
    (truthy c.settings.omiseLivePublic = true →
      publicKeyOmise.getter c = c.settings.omiseLivePublic) ∧
    (truthy c.settings.omiseLivePublic = false →
      publicKeyOmise.getter c = c.settings.omiseTestPublic) := by
  constructor <;> intro h <;> simp [publicKeyOmise, jsOr, h]

/-- C9: `publicKeyOmise` is read with no live key and the test key
`pkey_test_1`; then `settings.omiseTestPublic` is set to `pkey_test_2`.  The
dependent keys name the live key twice and the test key never, so the cached
value stays: with no live key configured the property answers `pkey_test_1`,
which is not the test key `pkey_test_2`. -/
theorem publicKeyOmise_stale_after_test_key_change :
    ((Instance.fresh sampleController).read publicKeyOmise).1 = .str "pkey_test_1" ∧
      testKeyReplaced.state.settings.omiseLivePublic = .undefined ∧
      testKeyReplaced.state.settings.omiseTestPublic = .str "pkey_test_2" ∧
      (testKeyReplaced.read publicKeyOmise).1 = .str "pkey_test_1" ∧
      publicKeyOmise.getter testKeyReplaced.state = .str "pkey_test_2" := by
  refine ⟨rfl, rfl, rfl, rfl, rfl⟩

/-- C8 (as stated, refuted): for the token `tok_1` and the order `o1` the URL
handed to `loader.post` is `orders/o1/charge`, not `/orders/o1/charge`. -/
theorem processStripeToken_url_has_no_leading_slash :
    posts (emitted sampleController.trace.length
        (processStripeToken (sampleEnv (.returns .pending)) sampleController sampleToken))
        = [.post "orders/o1/charge"
            (some (.str "\x7b\"data\":\x7b\"attributes\":\x7b\"stripe\":\"tok_1\",\"paypal_payer_id\":null,\"paypal_payment_id\":null\x7d,\"type\":\"charge\"\x7d\x7d"))
            (some chargeConfig)] ∧
      posts (emitted sampleController.trace.length
        (processStripeToken (sampleEnv (.returns .pending)) sampleController sampleToken))
        ≠ [.post "/orders/o1/charge"
            (some (.str "\x7b\"data\":\x7b\"attributes\":\x7b\"stripe\":\"tok_1\",\"paypal_payer_id\":null,\"paypal_payment_id\":null\x7d,\"type\":\"charge\"\x7d\x7d"))
            (some chargeConfig)] := by
  have h : posts (emitted sampleController.trace.length
        (processStripeToken (sampleEnv (.returns .pending)) sampleController sampleToken))
        = [.post "orders/o1/charge"
            (some (.str "\x7b\"data\":\x7b\"attributes\":\x7b\"stripe\":\"tok_1\",\"paypal_payer_id\":null,\"paypal_payment_id\":null\x7d,\"type\":\"charge\"\x7d\x7d"))
            (some chargeConfig)] := rfl
  refine ⟨h, ?_⟩
  rw [h]
  simp

/-- C8 (amended): for a token with an id and an order with an identifier,
`processStripeToken` issues exactly one POST, whatever the loader then does;
the URL it hands to `loader.post` is the relative path
`orders/{identifier}/charge`; the body is a string, the JSON text of the charge
payload around the serialized token id; the configuration has
`skipDataTransform` set to true. -/
theorem processStripeToken_request (env : Env) (c : Controller)
    (token tokenId identifier : JSVal) (j : String)
    (htok : getProp token "id" = .ok tokenId)
    (hj : stringifyVal tokenId = some j)
    (hord : getProp c.order "identifier" = .ok identifier) :
    posts (emitted c.trace.length (processStripeToken env c token))
        = [.post ("orders/" ++ toJSString identifier ++ "/charge")
            (some (.str ("\x7b\"data\":\x7b\"attributes\":\x7b\"stripe\":" ++ j
              ++ ",\"paypal_payer_id\":null,\"paypal_payment_id\":null\x7d,\"type\":\"charge\"\x7d\x7d")))
            (some chargeConfig)] ∧
      getProp chargeConfig "skipDataTransform" = .ok (.bool true) := by
  refine ⟨?_, rfl⟩
  rw [processStripeToken_posts env c token tokenId identifier htok hord,
    JSONstringify_chargePayloadObject tokenId j hj]

/-- C8 (amended) at the token `tok_1` and the order `o1`, the loader throwing
before it returns a promise. -/
theorem processStripeToken_request_witness :
    posts (emitted sampleController.trace.length
        (processStripeToken (sampleEnv (.throws (.str "offline"))) sampleController
          sampleToken))
        = [.post "orders/o1/charge"
            (some (.str "\x7b\"data\":\x7b\"attributes\":\x7b\"stripe\":\"tok_1\",\"paypal_payer_id\":null,\"paypal_payment_id\":null\x7d,\"type\":\"charge\"\x7d\x7d"))
            (some chargeConfig)] ∧
      getProp chargeConfig "skipDataTransform" = .ok (.bool true) :=
  processStripeToken_request (sampleEnv (.throws (.str "offline"))) sampleController
    sampleToken (.str "tok_1") (.str "o1") "\"tok_1\"" rfl rfl rfl

/-- C7 (as stated, refuted): a controller left busy by a first
`processStripeToken` whose charge is still pending accepts a second call, which
issues a second charge request while the first is in flight. -/
theorem processStripeToken_second_call_posts_again :
    (processStripeToken (sampleEnv (.returns .pending)) sampleController
        sampleToken).controller.isLoading = true ∧
      (processStripeToken (sampleEnv (.returns .pending)) sampleController
        sampleToken).promise = some .pending ∧
      posts (processStripeToken (sampleEnv (.returns .pending))
        (processStripeToken (sampleEnv (.returns .pending)) sampleController
          sampleToken).controller sampleToken).controller.trace
        = [.post "orders/o1/charge"
            (some (JSONstringify (chargePayloadObject (.str "tok_1")))) (some chargeConfig),
           .post "orders/o1/charge"
            (some (JSONstringify (chargePayloadObject (.str "tok_1")))) (some chargeConfig)] := by
  refine ⟨rfl, rfl, rfl⟩

/-- C7 (amended): `processStripeToken` never reads `isLoading`.  Called while
the flag is true, with a token that has an id and an order that has an
identifier, it issues one further charge request and ends exactly as it does
when called with the flag false. -/
theorem processStripeToken_not_guarded (env : Env) (c : Controller)
    (token tokenId identifier : JSVal)
    (htok : getProp token "id" = .ok tokenId)
    (hord : getProp c.order "identifier" = .ok identifier) :
    posts (emitted c.trace.length
        (processStripeToken env { c with isLoading := true } token))
        = [.post ("orders/" ++ toJSString identifier ++ "/charge")
            (some (JSONstringify (chargePayloadObject tokenId))) (some chargeConfig)] ∧
      processStripeToken env { c with isLoading := true } token
        = processStripeToken env { c with isLoading := false } token :=
  ⟨processStripeToken_posts env { c with isLoading := true } token tokenId identifier
    htok hord, rfl⟩

/-- C7 (amended), at a controller left busy by a pending first call. -/
theorem processStripeToken_not_guarded_witness :
    posts (emitted 1
        (processStripeToken (sampleEnv (.returns .pending))
          { (processStripeToken (sampleEnv (.returns .pending)) sampleController
              sampleToken).controller with isLoading := true } sampleToken))
        = [.post ("orders/" ++ toJSString (.str "o1") ++ "/charge")
            (some (JSONstringify (chargePayloadObject (.str "tok_1")))) (some chargeConfig)] ∧
      processStripeToken (sampleEnv (.returns .pending))
          { (processStripeToken (sampleEnv (.returns .pending)) sampleController
              sampleToken).controller with isLoading := true } sampleToken
        = processStripeToken (sampleEnv (.returns .pending))
          { (processStripeToken (sampleEnv (.returns .pending)) sampleController
              sampleToken).controller with isLoading := false } sampleToken :=
  processStripeToken_not_guarded (sampleEnv (.returns .pending))
    (processStripeToken (sampleEnv (.returns .pending)) sampleController
      sampleToken).controller sampleToken (.str "tok_1") (.str "o1") rfl rfl

/-- C10 (as stated, refuted): a charge response whose `data.attributes` has a
message but no `status` makes `processStripeToken` emit an error notification
built from that message, not the generic one. -/
theorem processStripeToken_missing_status_uses_message :
    notifications (processStripeToken
        (sampleEnv (.returns (.fulfilled
          (.obj (.cons "data" (.obj (.cons "attributes"
            (.obj (.cons "message" (.str "Insufficient funds") .nil)) .nil)) .nil)))))
        sampleController sampleToken).controller.trace
        = [.notifyError (.str "Insufficient funds")] ∧
      notifications (processStripeToken
        (sampleEnv (.returns (.fulfilled
          (.obj (.cons "data" (.obj (.cons "attributes"
            (.obj (.cons "message" (.str "Insufficient funds") .nil)) .nil)) .nil)))))
        sampleController sampleToken).controller.trace
        ≠ [.notifyError (.str "An unexpected error has occurred")] := by
  have h : notifications (processStripeToken
        (sampleEnv (.returns (.fulfilled
          (.obj (.cons "data" (.obj (.cons "attributes"
            (.obj (.cons "message" (.str "Insufficient funds") .nil)) .nil)) .nil)))))
        sampleController sampleToken).controller.trace
        = [.notifyError (.str "Insufficient funds")] := rfl
  refine ⟨h, ?_⟩
  rw [h]
  simp

/-- C10 (amended): when the charge response has `data.attributes` but its
`status` is absent, `processStripeToken` takes the failure branch: it emits
exactly one notification, the error notification carrying the response's
`message` (undefined when that is absent too), does not navigate, and clears
`isLoading`. -/
theorem processStripeToken_missing_status (env : Env) (c : Controller)
    (token tokenId identifier response d a message : JSVal)
    (htok : getProp token "id" = .ok tokenId)
    (hord : getProp c.order "identifier" = .ok identifier)
    (hpost : env.post ("orders/" ++ toJSString identifier ++ "/charge")
      (some (JSONstringify (chargePayloadObject tokenId))) (some chargeConfig)
        = .returns (.fulfilled response))
    (hd : getProp response "data" = .ok d)
    (ha : getProp d "attributes" = .ok a)
    (hs : getProp a "status" = .ok .undefined)
    (hm : getProp a "message" = .ok message) :
    notifications (emitted c.trace.length (processStripeToken env c token))
        = [.notifyError message] ∧
      navigations (emitted c.trace.length (processStripeToken env c token)) = [] ∧
      (processStripeToken env c token).controller.isLoading = false := by
  simp [processStripeToken, chargeChain, emitted, notifications, navigations, htok, hord,
    hpost, hd, ha, hs, hm, truthy, thenP, catchP, finallyP, chargeThen, chargeCatch,
    chargeFinally, chargeAttribute, Controller.emit, Controller.setLoading,
    Event.isNotification, Event.isTransition]

/-- C10 (amended) at a response with a message and no status. -/
theorem processStripeToken_missing_status_witness :
    notifications (emitted sampleController.trace.length (processStripeToken
        (sampleEnv (.returns (.fulfilled
          (.obj (.cons "data" (.obj (.cons "attributes"
            (.obj (.cons "message" (.str "Insufficient funds") .nil)) .nil)) .nil)))))
        sampleController sampleToken))
        = [.notifyError (.str "Insufficient funds")] ∧
      navigations (emitted sampleController.trace.length (processStripeToken
        (sampleEnv (.returns (.fulfilled
          (.obj (.cons "data" (.obj (.cons "attributes"
            (.obj (.cons "message" (.str "Insufficient funds") .nil)) .nil)) .nil)))))
        sampleController sampleToken)) = [] ∧
      (processStripeToken
        (sampleEnv (.returns (.fulfilled
          (.obj (.cons "data" (.obj (.cons "attributes"
            (.obj (.cons "message" (.str "Insufficient funds") .nil)) .nil)) .nil)))))
        sampleController sampleToken).controller.isLoading = false :=
  processStripeToken_missing_status
    (sampleEnv (.returns (.fulfilled
      (.obj (.cons "data" (.obj (.cons "attributes"
        (.obj (.cons "message" (.str "Insufficient funds") .nil)) .nil)) .nil)))))
    sampleController sampleToken (.str "tok_1") (.str "o1")
    (.obj (.cons "data" (.obj (.cons "attributes"
      (.obj (.cons "message" (.str "Insufficient funds") .nil)) .nil)) .nil))
    (.obj (.cons "attributes"
      (.obj (.cons "message" (.str "Insufficient funds") .nil)) .nil))
    (.obj (.cons "message" (.str "Insufficient funds") .nil))
    (.str "Insufficient funds") rfl rfl rfl rfl rfl rfl rfl

end OpenEvent
